import Mathlib

/-!
Shallow embedding of `twittapi/TwitterApi.py`: a thin client around one
HTTP GET helper.  The transport (the `requests` library) is modelled as a
function from the outgoing request to its outcome (a status and a parsed
JSON body, or a transport-level failure).  Methods are translated in a
state-passing style: each returns its result together with the instance
after the call, so that non-mutation of the configuration is provable.
-/

/-- JSON-like structured values, as parsed from a response body. -/
inductive Json where
  | null : Json
  | bool (b : Bool) : Json
  | num (n : Int) : Json
  | str (s : String) : Json
  | arr (elems : List Json) : Json
  | obj (fields : List (String × Json)) : Json

/-- Python truthiness of a JSON value (`None`, `0`, `""`, `[]`, `{}` are falsy). -/
def Json.truthy : Json → Bool
  | .null => false
  | .bool b => b
  | .num n => decide (n ≠ 0)
  | .str s => decide (s ≠ "")
  | .arr elems => !elems.isEmpty
  | .obj fields => !fields.isEmpty

/-- Exceptions the Python code can raise. -/
inductive PyErr where
  | valueError (msg : String)
  | keyError (key : String)
  | typeError (msg : String)
  deriving DecidableEq

/-- Python subscription `v[key]`: a key lookup on a dict, a `KeyError` when the
key is missing, a `TypeError` when the value is not a dict. -/
def Json.getItem : Json → String → Except PyErr Json
  | .obj fields, key =>
    match fields.lookup key with
    | some v => Except.ok v
    | none => Except.error (PyErr.keyError key)
  | _, _ => Except.error (PyErr.typeError "object is not subscriptable")

/-- A value of the query-parameter dict handed to `requests.get`:
the accessors put strings, ints, bools and `None` there. -/
inductive ParamValue where
  | str (s : String)
  | int (n : Int)
  | bool (b : Bool)
  | none
  deriving DecidableEq

/-- The outgoing request as handed to `requests.get(url, params=…, headers=…)`. -/
structure Request where
  url : String
  params : List (String × ParamValue)
  headers : List (String × String)

/-- What the transport produces for a request: a response with a status code
and a parsed JSON body, or a transport-level failure
(`requests.exceptions.RequestException`: connection error, timeout, …). -/
inductive TransportResult where
  | response (status : Nat) (body : Json)
  | failure (msg : String)

/-- The mocked `requests` layer. -/
abbrev Transport := Request → TransportResult

/-- The `TwitterApi` instance state, as set up by `__init__`. -/
structure TwitterApi where
  x_rapidapi_key : String
  host : String
  base_api_url : String
  headers : List (String × String)

/-- `TwitterApi.__init__`: raises `ValueError` when the key is falsy (empty),
otherwise stores the key, the fixed host, the base url derived from the host,
and the two precomputed headers. -/
def TwitterApi.init (x_rapidapi_key : String) : Except PyErr TwitterApi :=
  if x_rapidapi_key = "" then
    Except.error (PyErr.valueError "x_rapidapi_key is required")
  else
    let host := "twitter-x-api.p.rapidapi.com"
    Except.ok
      { x_rapidapi_key := x_rapidapi_key
      , host := host
      , base_api_url := "https://" ++ host ++ "/api"
      , headers := [("x-rapidapi-key", x_rapidapi_key), ("x-rapidapi-host", host)] }

/-- `res.raise_for_status()` raises `HTTPError` exactly for status codes in
`[400, 600)` (4xx and 5xx); other statuses pass through. -/
def raise_for_status (status : Nat) : Bool :=
  decide (400 ≤ status ∧ status < 600)

/-- The try/except body of `_make_request` applied to the transport's outcome:
an `HTTPError` (4xx/5xx) or a `RequestException` is caught, a diagnostic is
printed, and `None` is returned; otherwise the parsed body is returned verbatim. -/
def responseValue : TransportResult → Option Json
  | .response status body =>
      if raise_for_status status then none else some body
  | .failure _ => none

/-- `TwitterApi._make_request`: issue a GET for `url` with `params` and the
precomputed headers, returning the parsed JSON body or `None` on any caught
error.  The instance after the call is returned alongside. -/
def TwitterApi._make_request (self : TwitterApi) (transport : Transport)
    (url : String) (params : List (String × ParamValue)) :
    Option Json × TwitterApi :=
  (responseValue (transport { url := url, params := params, headers := self.headers }), self)

/-- The `cursor: str = None` argument: a string or Python `None`, placed in the
params dict as given. -/
def cursorValue : Option String → ParamValue
  | some s => ParamValue.str s
  | none => ParamValue.none

/-- `get_user_detail`: GET `/user/detail` with a `username` parameter. -/
def TwitterApi.get_user_detail (self : TwitterApi) (transport : Transport)
    (username : String) : Option Json × TwitterApi :=
  let url := self.base_api_url ++ "/user/detail"
  let params := [("username", ParamValue.str username)]
  self._make_request transport url params

/-- The return expression of `get_user_id_by_username`:
`user_detail['user']['result']['rest_id'] if user_detail else None`.
When the detail value is truthy the nested subscriptions are evaluated and may
raise; when it is falsy (`None`, or a successful but empty body) the result is
`None`. -/
def restIdOfDetail (user_detail : Option Json) : Except PyErr (Option Json) :=
  match user_detail with
  | some d =>
      if d.truthy then
        match d.getItem "user" >>= fun u => u.getItem "result" >>= fun r => r.getItem "rest_id" with
        | .ok v => Except.ok (some v)
        | .error e => Except.error e
      else Except.ok none
  | none => Except.ok none

/-- `get_user_id_by_username`: call `get_user_detail`, then extract
`['user']['result']['rest_id']` when the detail value is truthy. -/
def TwitterApi.get_user_id_by_username (self : TwitterApi) (transport : Transport)
    (username : String) : Except PyErr (Option Json) × TwitterApi :=
  let res := self.get_user_detail transport username
  (restIdOfDetail res.1, res.2)

/-- `get_user_followers`: GET `/user/followers`. -/
def TwitterApi.get_user_followers (self : TwitterApi) (transport : Transport)
    (user_id : String) (count : Int := 20) (cursor : Option String := none)
    (is_simplify : Bool := false) : Option Json × TwitterApi :=
  let url := self.base_api_url ++ "/user/followers"
  let params := [("user_id", ParamValue.str user_id), ("count", ParamValue.int count),
    ("cursor", cursorValue cursor), ("is_simplify", ParamValue.bool is_simplify)]
  self._make_request transport url params

/-- `get_user_verified_followers`: GET `/user/followers/blue-verified`. -/
def TwitterApi.get_user_verified_followers (self : TwitterApi) (transport : Transport)
    (user_id : String) (count : Int := 20) (cursor : Option String := none)
    (is_simplify : Bool := false) : Option Json × TwitterApi :=
  let url := self.base_api_url ++ "/user/followers/blue-verified"
  let params := [("user_id", ParamValue.str user_id), ("count", ParamValue.int count),
    ("cursor", cursorValue cursor), ("is_simplify", ParamValue.bool is_simplify)]
  self._make_request transport url params

/-- `get_user_following`: GET `/user/following`. -/
def TwitterApi.get_user_following (self : TwitterApi) (transport : Transport)
    (user_id : String) (count : Int := 20) (cursor : Option String := none)
    (is_simplify : Bool := false) : Option Json × TwitterApi :=
  let url := self.base_api_url ++ "/user/following"
  let params := [("user_id", ParamValue.str user_id), ("count", ParamValue.int count),
    ("cursor", cursorValue cursor), ("is_simplify", ParamValue.bool is_simplify)]
  self._make_request transport url params

/-- `get_user_subscriptions`: GET `/user/subscriptions`. -/
def TwitterApi.get_user_subscriptions (self : TwitterApi) (transport : Transport)
    (user_id : String) (count : Int := 20) (cursor : Option String := none)
    (is_simplify : Bool := false) : Option Json × TwitterApi :=
  let url := self.base_api_url ++ "/user/subscriptions"
  let params := [("user_id", ParamValue.str user_id), ("count", ParamValue.int count),
    ("cursor", cursorValue cursor), ("is_simplify", ParamValue.bool is_simplify)]
  self._make_request transport url params

/-- `get_user_tweets`: GET `/user/tweets`. -/
def TwitterApi.get_user_tweets (self : TwitterApi) (transport : Transport)
    (user_id : String) (count : Int := 20) (cursor : Option String := none)
    (is_simplify : Bool := false) : Option Json × TwitterApi :=
  let url := self.base_api_url ++ "/user/tweets"
  let params := [("user_id", ParamValue.str user_id), ("count", ParamValue.int count),
    ("cursor", cursorValue cursor), ("is_simplify", ParamValue.bool is_simplify)]
  self._make_request transport url params

/-- `get_user_replies`: GET `/user/replies`. -/
def TwitterApi.get_user_replies (self : TwitterApi) (transport : Transport)
    (user_id : String) (count : Int := 20) (cursor : Option String := none)
    (is_simplify : Bool := false) : Option Json × TwitterApi :=
  let url := self.base_api_url ++ "/user/replies"
  let params := [("user_id", ParamValue.str user_id), ("count", ParamValue.int count),
    ("cursor", cursorValue cursor), ("is_simplify", ParamValue.bool is_simplify)]
  self._make_request transport url params

/-- `get_user_medias`: GET `/user/medias`. -/
def TwitterApi.get_user_medias (self : TwitterApi) (transport : Transport)
    (user_id : String) (count : Int := 20) (cursor : Option String := none)
    (is_simplify : Bool := false) : Option Json × TwitterApi :=
  let url := self.base_api_url ++ "/user/medias"
  let params := [("user_id", ParamValue.str user_id), ("count", ParamValue.int count),
    ("cursor", cursorValue cursor), ("is_simplify", ParamValue.bool is_simplify)]
  self._make_request transport url params

/-- `get_tweet_detail`: GET `/tweet/detail` with a `tweet_id` parameter. -/
def TwitterApi.get_tweet_detail (self : TwitterApi) (transport : Transport)
    (tweet_id : String) : Option Json × TwitterApi :=
  let url := self.base_api_url ++ "/tweet/detail"
  let params := [("tweet_id", ParamValue.str tweet_id)]
  self._make_request transport url params

/-- `get_tweet_retweeters`: GET `/tweet/retweeters`. -/
def TwitterApi.get_tweet_retweeters (self : TwitterApi) (transport : Transport)
    (tweet_id : String) (count : Int := 20) (cursor : Option String := none)
    (is_simplify : Bool := false) : Option Json × TwitterApi :=
  let url := self.base_api_url ++ "/tweet/retweeters"
  let params := [("tweet_id", ParamValue.str tweet_id), ("count", ParamValue.int count),
    ("cursor", cursorValue cursor), ("is_simplify", ParamValue.bool is_simplify)]
  self._make_request transport url params

/-- `get_tweet_retweets`: GET `/tweet/retweets`. -/
def TwitterApi.get_tweet_retweets (self : TwitterApi) (transport : Transport)
    (tweet_id : String) (count : Int := 20) (cursor : Option String := none)
    (is_simplify : Bool := false) : Option Json × TwitterApi :=
  let url := self.base_api_url ++ "/tweet/retweets"
  let params := [("tweet_id", ParamValue.str tweet_id), ("count", ParamValue.int count),
    ("cursor", cursorValue cursor), ("is_simplify", ParamValue.bool is_simplify)]
  self._make_request transport url params

/-- `get_tweet_hidden_replies`: GET `/tweet/hidden-replies`. -/
def TwitterApi.get_tweet_hidden_replies (self : TwitterApi) (transport : Transport)
    (tweet_id : String) (count : Int := 20) (cursor : Option String := none)
    (is_simplify : Bool := false) : Option Json × TwitterApi :=
  let url := self.base_api_url ++ "/tweet/hidden-replies"
  let params := [("tweet_id", ParamValue.str tweet_id), ("count", ParamValue.int count),
    ("cursor", cursorValue cursor), ("is_simplify", ParamValue.bool is_simplify)]
  self._make_request transport url params

/-- `search_top`: GET `/search/top`. -/
def TwitterApi.search_top (self : TwitterApi) (transport : Transport)
    (keyword : String) (count : Int := 20) (cursor : Option String := none)
    (is_simplify : Bool := false) : Option Json × TwitterApi :=
  let url := self.base_api_url ++ "/search/top"
  let params := [("keyword", ParamValue.str keyword), ("count", ParamValue.int count),
    ("cursor", cursorValue cursor), ("is_simplify", ParamValue.bool is_simplify)]
  self._make_request transport url params

/-- `search_latest`: GET `/search/latest`. -/
def TwitterApi.search_latest (self : TwitterApi) (transport : Transport)
    (keyword : String) (count : Int := 20) (cursor : Option String := none)
    (is_simplify : Bool := false) : Option Json × TwitterApi :=
  let url := self.base_api_url ++ "/search/latest"
  let params := [("keyword", ParamValue.str keyword), ("count", ParamValue.int count),
    ("cursor", cursorValue cursor), ("is_simplify", ParamValue.bool is_simplify)]
  self._make_request transport url params

/-- `search_people`: GET `/search/people`. -/
def TwitterApi.search_people (self : TwitterApi) (transport : Transport)
    (keyword : String) (count : Int := 20) (cursor : Option String := none)
    (is_simplify : Bool := false) : Option Json × TwitterApi :=
  let url := self.base_api_url ++ "/search/people"
  let params := [("keyword", ParamValue.str keyword), ("count", ParamValue.int count),
    ("cursor", cursorValue cursor), ("is_simplify", ParamValue.bool is_simplify)]
  self._make_request transport url params

/-- `search_media`: GET `/search/media`. -/
def TwitterApi.search_media (self : TwitterApi) (transport : Transport)
    (keyword : String) (count : Int := 20) (cursor : Option String := none)
    (is_simplify : Bool := false) : Option Json × TwitterApi :=
  let url := self.base_api_url ++ "/search/media"
  let params := [("keyword", ParamValue.str keyword), ("count", ParamValue.int count),
    ("cursor", cursorValue cursor), ("is_simplify", ParamValue.bool is_simplify)]
  self._make_request transport url params

/-- `search_lists`: GET `/search/lists`. -/
def TwitterApi.search_lists (self : TwitterApi) (transport : Transport)
    (keyword : String) (count : Int := 20) (cursor : Option String := none)
    (is_simplify : Bool := false) : Option Json × TwitterApi :=
  let url := self.base_api_url ++ "/search/lists"
  let params := [("keyword", ParamValue.str keyword), ("count", ParamValue.int count),
    ("cursor", cursorValue cursor), ("is_simplify", ParamValue.bool is_simplify)]
  self._make_request transport url params

/-- `get_list_tweets`: GET `/list/tweets`. -/
def TwitterApi.get_list_tweets (self : TwitterApi) (transport : Transport)
    (list_id : String) (count : Int := 20) (cursor : Option String := none)
    (is_simplify : Bool := false) : Option Json × TwitterApi :=
  let url := self.base_api_url ++ "/list/tweets"
  let params := [("list_id", ParamValue.str list_id), ("count", ParamValue.int count),
    ("cursor", cursorValue cursor), ("is_simplify", ParamValue.bool is_simplify)]
  self._make_request transport url params

/-- `get_list_followers`: GET `/list/followers`. -/
def TwitterApi.get_list_followers (self : TwitterApi) (transport : Transport)
    (list_id : String) (count : Int := 20) (cursor : Option String := none)
    (is_simplify : Bool := false) : Option Json × TwitterApi :=
  let url := self.base_api_url ++ "/list/followers"
  let params := [("list_id", ParamValue.str list_id), ("count", ParamValue.int count),
    ("cursor", cursorValue cursor), ("is_simplify", ParamValue.bool is_simplify)]
  self._make_request transport url params

/-- `get_list_member`: GET `/list/member`. -/
def TwitterApi.get_list_member (self : TwitterApi) (transport : Transport)
    (list_id : String) (count : Int := 20) (cursor : Option String := none)
    (is_simplify : Bool := false) : Option Json × TwitterApi :=
  let url := self.base_api_url ++ "/list/member"
  let params := [("list_id", ParamValue.str list_id), ("count", ParamValue.int count),
    ("cursor", cursorValue cursor), ("is_simplify", ParamValue.bool is_simplify)]
  self._make_request transport url params

/-- `get_job_detail`: GET `/job/detail` with `job_id` and `is_simplify`. -/
def TwitterApi.get_job_detail (self : TwitterApi) (transport : Transport)
    (job_id : String) (is_simplify : Bool := false) : Option Json × TwitterApi :=
  let url := self.base_api_url ++ "/job/detail"
  let params := [("job_id", ParamValue.str job_id), ("is_simplify", ParamValue.bool is_simplify)]
  self._make_request transport url params

/-- `search_job`: GET `/job/search`. -/
def TwitterApi.search_job (self : TwitterApi) (transport : Transport)
    (keyword : String) (count : Int := 20) (cursor : Option String := none)
    (is_simplify : Bool := false) : Option Json × TwitterApi :=
  let url := self.base_api_url ++ "/job/search"
  let params := [("keyword", ParamValue.str keyword), ("count", ParamValue.int count),
    ("cursor", cursorValue cursor), ("is_simplify", ParamValue.bool is_simplify)]
  self._make_request transport url params

/-- `search_job_location`: GET `/job/search/location` with a `query` parameter. -/
def TwitterApi.search_job_location (self : TwitterApi) (transport : Transport)
    (query : String) : Option Json × TwitterApi :=
  let url := self.base_api_url ++ "/job/search/location"
  let params := [("query", ParamValue.str query)]
  self._make_request transport url params

/-- A transport that answers every request with HTTP 200 and body `B`. -/
def okTransport (B : Json) : Transport := fun _ => TransportResult.response 200 B

/-- A transport that answers every request with the given status and body. -/
def statusTransport (status : Nat) (B : Json) : Transport :=
  fun _ => TransportResult.response status B

/-- A transport that fails every request at the network layer. -/
def failTransport (msg : String) : Transport := fun _ => TransportResult.failure msg

/-- A concrete instance, as constructed from the key `"k"`. -/
def apiK : TwitterApi :=
  { x_rapidapi_key := "k"
  , host := "twitter-x-api.p.rapidapi.com"
  , base_api_url := "https://twitter-x-api.p.rapidapi.com/api"
  , headers := [("x-rapidapi-key", "k"), ("x-rapidapi-host", "twitter-x-api.p.rapidapi.com")] }

/-- A truthy detail body that lacks the key `user`. -/
def detailNoUser : Json := Json.obj [("foo", Json.num 0)]

/-- The mocked detail body of the spec's example for `elonmusk`. -/
def detailElon : Json :=
  Json.obj [("user", Json.obj [("result", Json.obj [("rest_id", Json.str "44196397")])])]

/-- `call` hands exactly the request `req` to whatever transport it is run
against, and its value is the uniform handling of the transport's outcome. -/
def transmitsReq (api : TwitterApi) (call : Transport → Option Json × TwitterApi)
    (req : Request) : Prop :=
  ∀ t : Transport, call t = (responseValue (t req), api)

/-- Some request `call` hands to the transport carries the parameter `entry`. -/
def transmits (api : TwitterApi) (call : Transport → Option Json × TwitterApi)
    (entry : String × ParamValue) : Prop :=
  ∃ req : Request, entry ∈ req.params ∧ transmitsReq api call req

theorem raise_for_status_of (status : Nat) (h4 : 400 ≤ status) (h6 : status < 600) :
    raise_for_status status = true := by
  simp [raise_for_status]
  exact ⟨h4, h6⟩

theorem make_request_status_error (api : TwitterApi) (url : String)
    (params : List (String × ParamValue)) (status : Nat) (B : Json)
    (h4 : 400 ≤ status) (h6 : status < 600) :
    (api._make_request (statusTransport status B) url params).1 = none := by
  simp [TwitterApi._make_request, statusTransport, responseValue,
    raise_for_status_of status h4 h6]

theorem make_request_transport_error (api : TwitterApi) (url : String)
    (params : List (String × ParamValue)) (msg : String) :
    (api._make_request (failTransport msg) url params).1 = none := rfl

theorem getItem_not_valueError (j : Json) (k m : String) :
    j.getItem k ≠ Except.error (PyErr.valueError m) := by
  cases j <;> simp only [Json.getItem] <;> try simp
  case obj fields =>
    cases hl : fields.lookup k <;> simp [hl]

theorem bind_not_valueError (x : Except PyErr Json) (f : Json → Except PyErr Json)
    (m : String) (hx : ∀ n, x ≠ Except.error (PyErr.valueError n))
    (hf : ∀ v n, f v ≠ Except.error (PyErr.valueError n)) :
    x >>= f ≠ Except.error (PyErr.valueError m) := by
  cases x with
  | error e => exact hx m
  | ok v => exact hf v m

theorem restIdOfDetail_not_valueError (user_detail : Option Json) (m : String) :
    restIdOfDetail user_detail ≠ Except.error (PyErr.valueError m) := by
  cases user_detail with
  | none => simp [restIdOfDetail]
  | some d =>
      simp only [restIdOfDetail]
      by_cases h : d.truthy
      · rw [if_pos h]
        have hchain : ∀ n,
            (d.getItem "user" >>= fun u => u.getItem "result" >>= fun r => r.getItem "rest_id")
              ≠ Except.error (PyErr.valueError n) := by
          intro n
          refine bind_not_valueError _ _ n (fun n2 => getItem_not_valueError d "user" n2) ?_
          intro u n2
          refine bind_not_valueError _ _ n2 (fun n3 => getItem_not_valueError u "result" n3) ?_
          intro r n3
          exact getItem_not_valueError r "rest_id" n3
        cases hc : d.getItem "user" >>= fun u => u.getItem "result" >>= fun r => r.getItem "rest_id" with
        | ok v => simp
        | error e =>
            intro hmm
            injection hmm with he
            exact hchain m (he ▸ hc)
      · rw [if_neg h]
        simp

/-- C4: constructing with an empty (falsy) key fails with the `ValueError`
configuration error; no transport is involved in construction (`TwitterApi.init`
takes no transport), and no method ever surfaces a `ValueError`: the plain
accessors return an `Option` (they cannot raise), and the one raising method,
`get_user_id_by_username`, only ever raises subscription errors, never a
`ValueError`. -/
theorem init_empty_key_only_config_error (key : String) (h : key = "") :
    TwitterApi.init key = Except.error (PyErr.valueError "x_rapidapi_key is required") ∧
    ∀ (api : TwitterApi) (t : Transport) (u m : String),
      (api.get_user_id_by_username t u).1 ≠ Except.error (PyErr.valueError m) := by
  constructor
  · rw [h]
    rfl
  · intro api t u m
    exact restIdOfDetail_not_valueError ((api.get_user_detail t u).1) m

/-- Witness for C4 at the empty key and a concrete accessor call. -/
theorem init_empty_key_only_config_error_witness :
    TwitterApi.init "" = Except.error (PyErr.valueError "x_rapidapi_key is required") ∧
    (apiK.get_user_id_by_username (okTransport detailElon) "u").1
      ≠ Except.error (PyErr.valueError "boom") := by
  constructor
  · exact (init_empty_key_only_config_error "" rfl).1
  · exact (init_empty_key_only_config_error "" rfl).2 apiK (okTransport detailElon) "u" "boom"

/-- C5: constructing with a non-empty key succeeds, and the instance's header
mapping is exactly the key header with that key together with the fixed host
header. -/
theorem init_nonempty_key_headers (key : String) (h : key ≠ "") :
    TwitterApi.init key = Except.ok
      { x_rapidapi_key := key
      , host := "twitter-x-api.p.rapidapi.com"
      , base_api_url := "https://twitter-x-api.p.rapidapi.com/api"
      , headers := [("x-rapidapi-key", key),
          ("x-rapidapi-host", "twitter-x-api.p.rapidapi.com")] } := by
  unfold TwitterApi.init
  rw [if_neg h]
  rfl

/-- Witness for C5 at the key `"k"`. -/
theorem init_nonempty_key_headers_witness :
    TwitterApi.init "k" = Except.ok apiK :=
  init_nonempty_key_headers "k" (by decide)

/-- C7: with a transport whose detail response is
`{"user": {"result": {"rest_id": "44196397"}}}`, `get_user_id_by_username`
returns the literal string `"44196397"`. -/
theorem get_user_id_by_username_elonmusk (api : TwitterApi) (u : String) :
    (api.get_user_id_by_username (okTransport detailElon) u).1
      = Except.ok (some (Json.str "44196397")) := rfl

/-- C10: when `get_user_detail` succeeds but its value is falsy (for example
the empty mapping parsed from an HTTP 200 response), `get_user_id_by_username`
returns the failure marker, because line 98 tests the detail value for
truthiness. -/
theorem get_user_id_by_username_falsy_detail (api : TwitterApi) (t : Transport)
    (u : String) (d : Json) (h1 : (api.get_user_detail t u).1 = some d)
    (h2 : d.truthy = false) :
    (api.get_user_id_by_username t u).1 = Except.ok none := by
  have heq : (api.get_user_id_by_username t u).1
      = restIdOfDetail (api.get_user_detail t u).1 := rfl
  rw [heq, h1]
  simp [restIdOfDetail, h2]

/-- Witness for C10 at a 200 response with the empty mapping as body. -/
theorem get_user_id_by_username_falsy_detail_witness :
    (apiK.get_user_detail (okTransport (Json.obj [])) "u").1 = some (Json.obj []) ∧
    (apiK.get_user_id_by_username (okTransport (Json.obj [])) "u").1 = Except.ok none :=
  ⟨rfl, get_user_id_by_username_falsy_detail apiK (okTransport (Json.obj [])) "u"
    (Json.obj []) rfl rfl⟩

/-- C1 counterexample: the detail lookup succeeds with a truthy body that lacks
the key `user`, and `get_user_id_by_username` raises a `KeyError` instead of
returning the failure marker. -/
theorem get_user_id_missing_field_raises :
    (apiK.get_user_detail (okTransport detailNoUser) "missing_user").1 = some detailNoUser ∧
    (apiK.get_user_id_by_username (okTransport detailNoUser) "missing_user").1
      = Except.error (PyErr.keyError "user") :=
  ⟨rfl, rfl⟩

/-- C1 (amended): `get_user_id_by_username` returns the failure marker, without
raising, when the underlying `get_user_detail` returned the failure marker; but
when the detail response is present (truthy) and the nested
`user.result.rest_id` access fails, that subscription error is raised to the
caller rather than turned into the failure marker. -/
theorem get_user_id_by_username_amended :
    (∀ (api : TwitterApi) (t : Transport) (u : String),
        (api.get_user_detail t u).1 = none →
        (api.get_user_id_by_username t u).1 = Except.ok none) ∧
    (∀ (api : TwitterApi) (t : Transport) (u : String) (d : Json) (e : PyErr),
        (api.get_user_detail t u).1 = some d → d.truthy = true →
        (d.getItem "user" >>= fun x => x.getItem "result" >>= fun r => r.getItem "rest_id")
          = Except.error e →
        (api.get_user_id_by_username t u).1 = Except.error e) := by
  constructor
  · intro api t u h
    have heq : (api.get_user_id_by_username t u).1
        = restIdOfDetail (api.get_user_detail t u).1 := rfl
    rw [heq, h]
    rfl
  · intro api t u d e h1 h2 h3
    have heq : (api.get_user_id_by_username t u).1
        = restIdOfDetail (api.get_user_detail t u).1 := rfl
    rw [heq, h1]
    simp [restIdOfDetail, h2, h3]

/-- Witness for the amended C1: both branches at concrete transports. -/
theorem get_user_id_by_username_amended_witness :
    (apiK.get_user_id_by_username (failTransport "boom") "u").1 = Except.ok none ∧
    (apiK.get_user_id_by_username (okTransport detailNoUser) "u").1
      = Except.error (PyErr.keyError "user") := by
  constructor
  · exact get_user_id_by_username_amended.1 apiK (failTransport "boom") "u" rfl
  · exact get_user_id_by_username_amended.2 apiK (okTransport detailNoUser) "u" detailNoUser
      (PyErr.keyError "user") rfl rfl rfl

/-- C6: for every endpoint accessor, with a transport answering HTTP 200 and
parsed body `B`, the accessor returns exactly `B`, unmodified.  (The derived
`get_user_id_by_username` is not an endpoint accessor: it post-processes the
detail response.) -/
theorem accessors_return_body_on_200 (api : TwitterApi) (B : Json) (s : String)
    (count : Int) (cursor : Option String) (flag : Bool) :
    (api.get_user_detail (okTransport B) s).1 = some B ∧
    (api.get_user_followers (okTransport B) s count cursor flag).1 = some B ∧
    (api.get_user_verified_followers (okTransport B) s count cursor flag).1 = some B ∧
    (api.get_user_following (okTransport B) s count cursor flag).1 = some B ∧
    (api.get_user_subscriptions (okTransport B) s count cursor flag).1 = some B ∧
    (api.get_user_tweets (okTransport B) s count cursor flag).1 = some B ∧
    (api.get_user_replies (okTransport B) s count cursor flag).1 = some B ∧
    (api.get_user_medias (okTransport B) s count cursor flag).1 = some B ∧
    (api.get_tweet_detail (okTransport B) s).1 = some B ∧
    (api.get_tweet_retweeters (okTransport B) s count cursor flag).1 = some B ∧
    (api.get_tweet_retweets (okTransport B) s count cursor flag).1 = some B ∧
    (api.get_tweet_hidden_replies (okTransport B) s count cursor flag).1 = some B ∧
    (api.search_top (okTransport B) s count cursor flag).1 = some B ∧
    (api.search_latest (okTransport B) s count cursor flag).1 = some B ∧
    (api.search_people (okTransport B) s count cursor flag).1 = some B ∧
    (api.search_media (okTransport B) s count cursor flag).1 = some B ∧
    (api.search_lists (okTransport B) s count cursor flag).1 = some B ∧
    (api.get_list_tweets (okTransport B) s count cursor flag).1 = some B ∧
    (api.get_list_followers (okTransport B) s count cursor flag).1 = some B ∧
    (api.get_list_member (okTransport B) s count cursor flag).1 = some B ∧
    (api.get_job_detail (okTransport B) s flag).1 = some B ∧
    (api.search_job (okTransport B) s count cursor flag).1 = some B ∧
    (api.search_job_location (okTransport B) s).1 = some B := by
  repeat' apply And.intro
  all_goals rfl

/-- C2 counterexample: 304 is not a 2xx status, yet a 304 response with a
parsed body is returned verbatim rather than turned into the failure marker
(`raise_for_status` only raises for statuses in `[400, 600)`). -/
theorem non_2xx_not_always_failure_marker :
    ¬ (200 ≤ 304 ∧ 304 ≤ 299) ∧
    (apiK.get_user_detail (statusTransport 304 detailElon) "u").1 = some detailElon :=
  ⟨by decide, rfl⟩

/-- C2 (amended): for every accessor, a response with a 4xx or 5xx status, or
any transport-level failure, is contained: the accessor returns the failure
marker and no exception reaches the caller (the diagnostic print is a side
effect outside the return value). -/
theorem accessors_contain_upstream_errors (api : TwitterApi) (status : Nat) (B : Json)
    (msg s : String) (count : Int) (cursor : Option String) (flag : Bool)
    (h4 : 400 ≤ status) (h6 : status < 600) :
    (api.get_user_detail (statusTransport status B) s).1 = none ∧
    (api.get_user_detail (failTransport msg) s).1 = none ∧
    (api.get_user_followers (statusTransport status B) s count cursor flag).1 = none ∧
    (api.get_user_followers (failTransport msg) s count cursor flag).1 = none ∧
    (api.get_user_verified_followers (statusTransport status B) s count cursor flag).1 = none ∧
    (api.get_user_verified_followers (failTransport msg) s count cursor flag).1 = none ∧
    (api.get_user_following (statusTransport status B) s count cursor flag).1 = none ∧
    (api.get_user_following (failTransport msg) s count cursor flag).1 = none ∧
    (api.get_user_subscriptions (statusTransport status B) s count cursor flag).1 = none ∧
    (api.get_user_subscriptions (failTransport msg) s count cursor flag).1 = none ∧
    (api.get_user_tweets (statusTransport status B) s count cursor flag).1 = none ∧
    (api.get_user_tweets (failTransport msg) s count cursor flag).1 = none ∧
    (api.get_user_replies (statusTransport status B) s count cursor flag).1 = none ∧
    (api.get_user_replies (failTransport msg) s count cursor flag).1 = none ∧
    (api.get_user_medias (statusTransport status B) s count cursor flag).1 = none ∧
    (api.get_user_medias (failTransport msg) s count cursor flag).1 = none ∧
    (api.get_tweet_detail (statusTransport status B) s).1 = none ∧
    (api.get_tweet_detail (failTransport msg) s).1 = none ∧
    (api.get_tweet_retweeters (statusTransport status B) s count cursor flag).1 = none ∧
    (api.get_tweet_retweeters (failTransport msg) s count cursor flag).1 = none ∧
    (api.get_tweet_retweets (statusTransport status B) s count cursor flag).1 = none ∧
    (api.get_tweet_retweets (failTransport msg) s count cursor flag).1 = none ∧
    (api.get_tweet_hidden_replies (statusTransport status B) s count cursor flag).1 = none ∧
    (api.get_tweet_hidden_replies (failTransport msg) s count cursor flag).1 = none ∧
    (api.search_top (statusTransport status B) s count cursor flag).1 = none ∧
    (api.search_top (failTransport msg) s count cursor flag).1 = none ∧
    (api.search_latest (statusTransport status B) s count cursor flag).1 = none ∧
    (api.search_latest (failTransport msg) s count cursor flag).1 = none ∧
    (api.search_people (statusTransport status B) s count cursor flag).1 = none ∧
    (api.search_people (failTransport msg) s count cursor flag).1 = none ∧
    (api.search_media (statusTransport status B) s count cursor flag).1 = none ∧
    (api.search_media (failTransport msg) s count cursor flag).1 = none ∧
    (api.search_lists (statusTransport status B) s count cursor flag).1 = none ∧
    (api.search_lists (failTransport msg) s count cursor flag).1 = none ∧
    (api.get_list_tweets (statusTransport status B) s count cursor flag).1 = none ∧
    (api.get_list_tweets (failTransport msg) s count cursor flag).1 = none ∧
    (api.get_list_followers (statusTransport status B) s count cursor flag).1 = none ∧
    (api.get_list_followers (failTransport msg) s count cursor flag).1 = none ∧
    (api.get_list_member (statusTransport status B) s count cursor flag).1 = none ∧
    (api.get_list_member (failTransport msg) s count cursor flag).1 = none ∧
    (api.get_job_detail (statusTransport status B) s flag).1 = none ∧
    (api.get_job_detail (failTransport msg) s flag).1 = none ∧
    (api.search_job (statusTransport status B) s count cursor flag).1 = none ∧
    (api.search_job (failTransport msg) s count cursor flag).1 = none ∧
    (api.search_job_location (statusTransport status B) s).1 = none ∧
    (api.search_job_location (failTransport msg) s).1 = none := by
  repeat' apply And.intro
  all_goals first
    | exact make_request_status_error api _ _ status B h4 h6
    | exact make_request_transport_error api _ _ msg

/-- Witness for the amended C2 at status 404 and a connection error. -/
theorem accessors_contain_upstream_errors_witness :
    (apiK.get_user_detail (statusTransport 404 detailElon) "u").1 = none ∧
    (apiK.get_user_detail (failTransport "connection error") "u").1 = none := by
  have h := accessors_contain_upstream_errors apiK 404 detailElon "connection error" "u"
    20 none false (by decide) (by decide)
  exact ⟨h.1, h.2.1⟩

theorem transmits_of (api : TwitterApi) (call : Transport → Option Json × TwitterApi)
    (entry : String × ParamValue) (req : Request) (hreq : transmitsReq api call req)
    (hmem : entry ∈ req.params) : transmits api call entry :=
  ⟨req, hmem, hreq⟩

/-- C3: calling each cursor-taking accessor with the absent cursor (`None`)
still hands the transport a request whose parameter set carries the entry
`cursor = None`: the absent-valued entry is not dropped before the transport
boundary (`_make_request` passes the params dict to `requests.get` verbatim). -/
theorem none_cursor_transmitted (api : TwitterApi) (s : String) (count : Int) (flag : Bool) :
    transmits api (fun t => api.get_user_followers t s count none flag)
      ("cursor", ParamValue.none) ∧
    transmits api (fun t => api.get_user_verified_followers t s count none flag)
      ("cursor", ParamValue.none) ∧
    transmits api (fun t => api.get_user_following t s count none flag)
      ("cursor", ParamValue.none) ∧
    transmits api (fun t => api.get_user_subscriptions t s count none flag)
      ("cursor", ParamValue.none) ∧
    transmits api (fun t => api.get_user_tweets t s count none flag)
      ("cursor", ParamValue.none) ∧
    transmits api (fun t => api.get_user_replies t s count none flag)
      ("cursor", ParamValue.none) ∧
    transmits api (fun t => api.get_user_medias t s count none flag)
      ("cursor", ParamValue.none) ∧
    transmits api (fun t => api.get_tweet_retweeters t s count none flag)
      ("cursor", ParamValue.none) ∧
    transmits api (fun t => api.get_tweet_retweets t s count none flag)
      ("cursor", ParamValue.none) ∧
    transmits api (fun t => api.get_tweet_hidden_replies t s count none flag)
      ("cursor", ParamValue.none) ∧
    transmits api (fun t => api.search_top t s count none flag)
      ("cursor", ParamValue.none) ∧
    transmits api (fun t => api.search_latest t s count none flag)
      ("cursor", ParamValue.none) ∧
    transmits api (fun t => api.search_people t s count none flag)
      ("cursor", ParamValue.none) ∧
    transmits api (fun t => api.search_media t s count none flag)
      ("cursor", ParamValue.none) ∧
    transmits api (fun t => api.search_lists t s count none flag)
      ("cursor", ParamValue.none) ∧
    transmits api (fun t => api.get_list_tweets t s count none flag)
      ("cursor", ParamValue.none) ∧
    transmits api (fun t => api.get_list_followers t s count none flag)
      ("cursor", ParamValue.none) ∧
    transmits api (fun t => api.get_list_member t s count none flag)
      ("cursor", ParamValue.none) ∧
    transmits api (fun t => api.search_job t s count none flag)
      ("cursor", ParamValue.none) := by
  repeat' apply And.intro
  all_goals exact transmits_of _ _ _ _ (fun t => rfl) (by simp [cursorValue])

/-- C8: calling a paginated accessor with only its required identifier uses the
declared defaults, so the request handed to the transport carries exactly
`count = 20`, `cursor = None` and `is_simplify = False` alongside the
identifier. -/
theorem default_call_params (api : TwitterApi) (s : String) :
    transmitsReq api (fun t => api.get_user_followers t s)
      { url := api.base_api_url ++ "/user/followers"
      , params := [("user_id", ParamValue.str s), ("count", ParamValue.int 20),
          ("cursor", ParamValue.none), ("is_simplify", ParamValue.bool false)]
      , headers := api.headers } ∧
    transmitsReq api (fun t => api.get_user_verified_followers t s)
      { url := api.base_api_url ++ "/user/followers/blue-verified"
      , params := [("user_id", ParamValue.str s), ("count", ParamValue.int 20),
          ("cursor", ParamValue.none), ("is_simplify", ParamValue.bool false)]
      , headers := api.headers } ∧
    transmitsReq api (fun t => api.get_user_following t s)
      { url := api.base_api_url ++ "/user/following"
      , params := [("user_id", ParamValue.str s), ("count", ParamValue.int 20),
          ("cursor", ParamValue.none), ("is_simplify", ParamValue.bool false)]
      , headers := api.headers } ∧
    transmitsReq api (fun t => api.get_user_subscriptions t s)
      { url := api.base_api_url ++ "/user/subscriptions"
      , params := [("user_id", ParamValue.str s), ("count", ParamValue.int 20),
          ("cursor", ParamValue.none), ("is_simplify", ParamValue.bool false)]
      , headers := api.headers } ∧
    transmitsReq api (fun t => api.get_user_tweets t s)
      { url := api.base_api_url ++ "/user/tweets"
      , params := [("user_id", ParamValue.str s), ("count", ParamValue.int 20),
          ("cursor", ParamValue.none), ("is_simplify", ParamValue.bool false)]
      , headers := api.headers } ∧
    transmitsReq api (fun t => api.get_user_replies t s)
      { url := api.base_api_url ++ "/user/replies"
      , params := [("user_id", ParamValue.str s), ("count", ParamValue.int 20),
          ("cursor", ParamValue.none), ("is_simplify", ParamValue.bool false)]
      , headers := api.headers } ∧
    transmitsReq api (fun t => api.get_user_medias t s)
      { url := api.base_api_url ++ "/user/medias"
      , params := [("user_id", ParamValue.str s), ("count", ParamValue.int 20),
          ("cursor", ParamValue.none), ("is_simplify", ParamValue.bool false)]
      , headers := api.headers } ∧
    transmitsReq api (fun t => api.get_tweet_retweeters t s)
      { url := api.base_api_url ++ "/tweet/retweeters"
      , params := [("tweet_id", ParamValue.str s), ("count", ParamValue.int 20),
          ("cursor", ParamValue.none), ("is_simplify", ParamValue.bool false)]
      , headers := api.headers } ∧
    transmitsReq api (fun t => api.get_tweet_retweets t s)
      { url := api.base_api_url ++ "/tweet/retweets"
      , params := [("tweet_id", ParamValue.str s), ("count", ParamValue.int 20),
          ("cursor", ParamValue.none), ("is_simplify", ParamValue.bool false)]
      , headers := api.headers } ∧
    transmitsReq api (fun t => api.get_tweet_hidden_replies t s)
      { url := api.base_api_url ++ "/tweet/hidden-replies"
      , params := [("tweet_id", ParamValue.str s), ("count", ParamValue.int 20),
          ("cursor", ParamValue.none), ("is_simplify", ParamValue.bool false)]
      , headers := api.headers } ∧
    transmitsReq api (fun t => api.search_top t s)
      { url := api.base_api_url ++ "/search/top"
      , params := [("keyword", ParamValue.str s), ("count", ParamValue.int 20),
          ("cursor", ParamValue.none), ("is_simplify", ParamValue.bool false)]
      , headers := api.headers } ∧
    transmitsReq api (fun t => api.search_latest t s)
      { url := api.base_api_url ++ "/search/latest"
      , params := [("keyword", ParamValue.str s), ("count", ParamValue.int 20),
          ("cursor", ParamValue.none), ("is_simplify", ParamValue.bool false)]
      , headers := api.headers } ∧
    transmitsReq api (fun t => api.search_people t s)
      { url := api.base_api_url ++ "/search/people"
      , params := [("keyword", ParamValue.str s), ("count", ParamValue.int 20),
          ("cursor", ParamValue.none), ("is_simplify", ParamValue.bool false)]
      , headers := api.headers } ∧
    transmitsReq api (fun t => api.search_media t s)
      { url := api.base_api_url ++ "/search/media"
      , params := [("keyword", ParamValue.str s), ("count", ParamValue.int 20),
          ("cursor", ParamValue.none), ("is_simplify", ParamValue.bool false)]
      , headers := api.headers } ∧
    transmitsReq api (fun t => api.search_lists t s)
      { url := api.base_api_url ++ "/search/lists"
      , params := [("keyword", ParamValue.str s), ("count", ParamValue.int 20),
          ("cursor", ParamValue.none), ("is_simplify", ParamValue.bool false)]
      , headers := api.headers } ∧
    transmitsReq api (fun t => api.get_list_tweets t s)
      { url := api.base_api_url ++ "/list/tweets"
      , params := [("list_id", ParamValue.str s), ("count", ParamValue.int 20),
          ("cursor", ParamValue.none), ("is_simplify", ParamValue.bool false)]
      , headers := api.headers } ∧
    transmitsReq api (fun t => api.get_list_followers t s)
      { url := api.base_api_url ++ "/list/followers"
      , params := [("list_id", ParamValue.str s), ("count", ParamValue.int 20),
          ("cursor", ParamValue.none), ("is_simplify", ParamValue.bool false)]
      , headers := api.headers } ∧
    transmitsReq api (fun t => api.get_list_member t s)
      { url := api.base_api_url ++ "/list/member"
      , params := [("list_id", ParamValue.str s), ("count", ParamValue.int 20),
          ("cursor", ParamValue.none), ("is_simplify", ParamValue.bool false)]
      , headers := api.headers } ∧
    transmitsReq api (fun t => api.search_job t s)
      { url := api.base_api_url ++ "/job/search"
      , params := [("keyword", ParamValue.str s), ("count", ParamValue.int 20),
          ("cursor", ParamValue.none), ("is_simplify", ParamValue.bool false)]
      , headers := api.headers } := by
  repeat' apply And.intro
  all_goals exact fun t => rfl

/-- C9: the configuration established at construction is never mutated: for
every method, argument and transport outcome, the instance after the call (the
second component of the state-passing translation) is the instance before it. -/
theorem accessors_preserve_config (api : TwitterApi) (t : Transport) (s : String)
    (count : Int) (cursor : Option String) (flag : Bool) :
    (api.get_user_detail t s).2 = api ∧
    (api.get_user_id_by_username t s).2 = api ∧
    (api.get_user_followers t s count cursor flag).2 = api ∧
    (api.get_user_verified_followers t s count cursor flag).2 = api ∧
    (api.get_user_following t s count cursor flag).2 = api ∧
    (api.get_user_subscriptions t s count cursor flag).2 = api ∧
    (api.get_user_tweets t s count cursor flag).2 = api ∧
    (api.get_user_replies t s count cursor flag).2 = api ∧
    (api.get_user_medias t s count cursor flag).2 = api ∧
    (api.get_tweet_detail t s).2 = api ∧
    (api.get_tweet_retweeters t s count cursor flag).2 = api ∧
    (api.get_tweet_retweets t s count cursor flag).2 = api ∧
    (api.get_tweet_hidden_replies t s count cursor flag).2 = api ∧
    (api.search_top t s count cursor flag).2 = api ∧
    (api.search_latest t s count cursor flag).2 = api ∧
    (api.search_people t s count cursor flag).2 = api ∧
    (api.search_media t s count cursor flag).2 = api ∧
    (api.search_lists t s count cursor flag).2 = api ∧
    (api.get_list_tweets t s count cursor flag).2 = api ∧
    (api.get_list_followers t s count cursor flag).2 = api ∧
    (api.get_list_member t s count cursor flag).2 = api ∧
    (api.get_job_detail t s flag).2 = api ∧
    (api.search_job t s count cursor flag).2 = api ∧
    (api.search_job_location t s).2 = api := by
  repeat' apply And.intro
  all_goals rfl
